import Mathlib

/-!
# Verification of the reviews microservice (src/services/reviews/reviews.py)

Shallow embedding of the review-moderation and rating-aggregation engine.
Database rows become Lean structures; the SQLAlchemy session and its commits
become explicit state passing on a `DB` value.  Python numbers that the code
treats as exact (integer ratings, JSON attribute scores, the quotient fed to
`round(_, 2)`) are modelled over `ℚ`/`Nat`/`Int`.  Timestamps
(`review_date`, `response_date`, `last_updated`) are modelled as `Nat` where
they matter for ordering and omitted from `ReviewSummary`, whose other four
fields are the ones the specification's invariants speak about.
-/

namespace Reviews

/-- The `helpfulness` JSON column of a review: `{"likes": .., "dislikes": ..}`
(reviews.py line 28).  Values are modelled as `Int` because the code applies
no range check when overwriting them (lines 313-316). -/
structure Helpfulness where
  likes : Int
  dislikes : Int
deriving DecidableEq, Repr

/-- A row of the `review` table (reviews.py lines 16-34).  `attributes` is a
JSON object mapping attribute names to numeric scores; a Python dict is
modelled as an association list whose keys are distinct (`None` becomes `[]`,
which is also falsy like `None` under the `if review.attributes:` test at
line 100).  `status` is the free-form string column of the source. -/
structure Review where
  id : String
  product_id : String
  user_id : String
  title : String
  comment : Option String
  rating : Nat
  photos : Option (List String)
  helpfulness : Helpfulness
  status : String
  verified_purchase : Bool
  attributes : List (String × ℚ)
deriving DecidableEq, Repr

/-- A row of the `review_response` table (reviews.py lines 37-47);
`response_date` is a timestamp modelled as `Nat`. -/
structure ReviewResponse where
  id : String
  review_id : String
  user_id : String
  comment : String
  response_date : Nat
  is_seller : Bool
  status : String
deriving DecidableEq, Repr

/-- The `distribution` JSON column `{"5": .., "4": .., "3": .., "2": .., "1": ..}`
of a summary row (reviews.py line 57). -/
structure Distribution where
  c1 : Nat
  c2 : Nat
  c3 : Nat
  c4 : Nat
  c5 : Nat
deriving DecidableEq, Repr

/-- The all-zero distribution `{"5": 0, "4": 0, "3": 0, "2": 0, "1": 0}`. -/
def Distribution.zero : Distribution := ⟨0, 0, 0, 0, 0⟩

/-- Models `distribution[str(review.rating)] += 1` (reviews.py line 90).  In the
source a rating outside 1..5 would raise `KeyError`; such ratings cannot be
created through `create_review` (line 199) and are excluded by hypotheses
wherever they would matter, so the wildcard arm is never relied upon. -/
def Distribution.bump (d : Distribution) (r : Nat) : Distribution :=
  if r = 1 then { d with c1 := d.c1 + 1 }
  else if r = 2 then { d with c2 := d.c2 + 1 }
  else if r = 3 then { d with c3 := d.c3 + 1 }
  else if r = 4 then { d with c4 := d.c4 + 1 }
  else if r = 5 then { d with c5 := d.c5 + 1 }
  else d

/-- Models `sum(distribution.values())` (reviews.py line 94). -/
def Distribution.sumValues (d : Distribution) : Nat :=
  d.c1 + d.c2 + d.c3 + d.c4 + d.c5

/-- Models `sum(int(key) * value for key, value in distribution.items())`
(reviews.py line 93). -/
def Distribution.totalRatings (d : Distribution) : Nat :=
  1 * d.c1 + 2 * d.c2 + 3 * d.c3 + 4 * d.c4 + 5 * d.c5

/-- A row of the `review_summary` table (reviews.py lines 50-59), minus the
`last_updated` timestamp, which is set to the wall clock on every write and
carries no invariant.  `attribute_averages` is a JSON object modelled as an
association list in the insertion order the Python code produces. -/
structure ReviewSummary where
  average_rating : ℚ
  total_reviews : Nat
  distribution : Distribution
  attribute_averages : List (String × ℚ)
deriving DecidableEq, Repr

/-- Python's `round(x, 2)` on the exact rational value of `x`: round
`x * 100` to the nearest integer and divide back.  (Mathlib's `round` ties
away from even; Python floats tie to even — the two differ only on exact
half-cent ties, and every statement below uses this single function on both
sides, so the convention never decides a claim.) -/
def round2 (q : ℚ) : ℚ := (round (q * 100) : ℚ) / 100

/-- The zeroed summary written by the empty branch of
`update_product_summary` (reviews.py lines 80-83). -/
def zeroSummary : ReviewSummary :=
  { average_rating := 0
    total_reviews := 0
    distribution := Distribution.zero
    attribute_averages := [] }

/-- One step of the per-attribute accumulation loop (reviews.py lines
101-105): look up `attr` in the accumulator dict, inserting `{"sum": 0,
"count": 0}` when absent, then add `value` to its sum and 1 to its count.
Insertion order of new keys is preserved, as for a Python dict. -/
def upsertAttr : List (String × ℚ × Nat) → String → ℚ → List (String × ℚ × Nat)
  | [], attr, v => [(attr, v, 1)]
  | (a, s, c) :: rest, attr, v =>
    if a = attr then (a, s + v, c + 1) :: rest
    else (a, s, c) :: upsertAttr rest attr v

/-- The accumulator dict `attributes` after the loop at reviews.py lines
98-105: fold every review's attribute pairs through `upsertAttr`.  A review
with `attributes` equal to `None` or `{}` is skipped by the truthiness test
at line 100; both are modelled by `[]`, over which the inner fold is a
no-op, so no separate branch is needed. -/
def attrSums (reviews : List Review) : List (String × ℚ × Nat) :=
  reviews.foldl (fun acc r => r.attributes.foldl (fun a p => upsertAttr a p.1 p.2) acc) []

/-- The rating distribution computed by the loop at reviews.py lines 88-90:
start from the all-zero dict and bump the bucket of each review's rating. -/
def distOf (reviews : List Review) : Distribution :=
  reviews.foldl (fun d r => d.bump r.rating) Distribution.zero

/-- `update_product_summary`'s computation of the new summary from the
fetched approved set (reviews.py lines 74-121), separated from the
persistence it is interleaved with there.  The empty branch (lines 74-85)
writes the zeroed summary; the main branch computes the distribution
(lines 88-90), the totals and average (lines 93-95), the per-attribute
averages (lines 98-109) and rounds the average to 2 decimals (line 117). -/
def computeSummary (reviews : List Review) : ReviewSummary :=
  if reviews.isEmpty then zeroSummary
  else
    { average_rating :=
        round2 (if (distOf reviews).sumValues > 0
                then ((distOf reviews).totalRatings : ℚ) / ((distOf reviews).sumValues : ℚ)
                else 0)
      total_reviews := (distOf reviews).sumValues
      distribution := distOf reviews
      attribute_averages :=
        (attrSums reviews).map (fun p => (p.1, if p.2.2 > 0 then p.2.1 / (p.2.2 : ℚ) else 0)) }

/-! ## The database and the route handlers

A `DB` value is the committed, reader-visible state of the three tables.
Each route handler becomes a function from the current `DB` (plus request
data) to an outcome paired with the `DB` visible afterwards.  Where the
handler issues `db.session.commit()` calls that can raise (caught by the
`try/except` blocks), the possible failure point is an explicit parameter,
and the resulting `DB` is what the rollback semantics of the source leaves
committed. -/

/-- Committed state of the service's tables. -/
structure DB where
  reviews : List Review
  summaries : List (String × ReviewSummary)
  responses : List ReviewResponse
deriving DecidableEq, Repr

/-- Models `Review.query.get(review_id)` / `get_or_404`: fetch by primary key. -/
def getReview (db : DB) (rid : String) : Option Review :=
  db.reviews.find? (fun r => r.id == rid)

/-- Models `Review.query.filter_by(product_id=product_id, status='approved').all()`
(reviews.py line 72). -/
def approvedOf (db : DB) (pid : String) : List Review :=
  db.reviews.filter (fun r => r.product_id == pid && r.status == "approved")

/-- Assign `status` on the row with primary key `rid` (the ORM mutates the
single fetched object; primary keys are unique). -/
def setStatus (rs : List Review) (rid st : String) : List Review :=
  rs.map (fun r => if r.id == rid then { r with status := st } else r)

/-- Models `ReviewSummary.query.get(product_id)` followed by create-if-absent and
field assignment (reviews.py lines 76-79 and 112-121): replace the row with
key `pid`, appending a fresh row when none exists. -/
def putSummary : List (String × ReviewSummary) → String → ReviewSummary → List (String × ReviewSummary)
  | [], pid, s => [(pid, s)]
  | (q, t) :: rest, pid, s =>
    if q == pid then (q, s) :: rest else (q, t) :: putSummary rest pid s

/-- Models `update_product_summary(product_id)` (reviews.py lines 67-121) as a
transformation of the committed state: read the approved set fresh, compute
the new summary, and stage it on the product's row (both the empty and the
non-empty branch write through the same get-or-create-then-assign shape). -/
def update_product_summary (db : DB) (pid : String) : DB :=
  { db with summaries := putSummary db.summaries pid (computeSummary (approvedOf db pid)) }

/-- HTTP-level outcome of a handler: 404, the 400 of a non-pending
transition, the 400 of `create_review` validation, the 500 branch of a
`try/except`, and the success responses (200/201). -/
inductive Outcome
  | notFound
  | invalidState
  | validationError
  | serverError
  | success
deriving DecidableEq, Repr

/-- Which of the two `db.session.commit()` calls inside `approve_review`'s
`try` block (reviews.py lines 241 and 245) raises, if any. -/
inductive CommitFailure
  | neither
  | first
  | second
deriving DecidableEq, Repr

/-- Models `approve_review(review_id)` (reviews.py lines 228-250).  Fetch or 404;
400 if not pending; otherwise set status and commit (line 241), then run
`update_product_summary` and commit again (lines 244-245).  If the first
commit raises, the rollback leaves the original state committed; if the
second raises, the status change committed at line 241 is already durable
and only the staged summary is rolled back. -/
def approve_review (db : DB) (rid : String) (fail : CommitFailure) : Outcome × DB :=
  match getReview db rid with
  | none => (.notFound, db)
  | some r =>
    if r.status ≠ "pending" then (.invalidState, db)
    else
      match fail with
      | .first => (.serverError, db)
      | .second => (.serverError, { db with reviews := setStatus db.reviews rid "approved" })
      | .neither =>
        let db1 : DB := { db with reviews := setStatus db.reviews rid "approved" }
        (.success, update_product_summary db1 r.product_id)

/-- Models `reject_review(review_id)` (reviews.py lines 252-269).  Fetch or 404;
400 if not pending; otherwise set status and commit once.  `fail` models
that single commit raising, in which case the rollback leaves the original
state.  The summaries table is never consulted. -/
def reject_review (db : DB) (rid : String) (fail : Bool) : Outcome × DB :=
  match getReview db rid with
  | none => (.notFound, db)
  | some r =>
    if r.status ≠ "pending" then (.invalidState, db)
    else if fail then (.serverError, db)
    else (.success, { db with reviews := setStatus db.reviews rid "rejected" })

/-- The nested response listing inside `get_product_reviews` (reviews.py
line 162): `review.responses.filter_by(status='active').all()`.  The
`responses` relationship is the rows whose `review_id` matches; the query
has no `order_by`, so rows come back in repository (insertion) order. -/
def listResponses (db : DB) (rid : String) : List ReviewResponse :=
  (db.responses.filter (fun s => s.review_id == rid)).filter (fun s => s.status == "active")

/-- The JSON body of a `POST /avaliacoes` request (reviews.py lines
190-211).  `none` models an absent key.  `status` and `helpfulness` keys a
caller might include are carried so that it can be stated that the handler
never reads them. -/
structure CreatePayload where
  id : Option String
  product_id : Option String
  user_id : Option String
  title : Option String
  comment : Option String
  rating : Option Nat
  photos : Option (List String)
  verified_purchase : Option Bool
  attributes : Option (List (String × ℚ))
  status : Option String
  helpfulness : Option Helpfulness
deriving DecidableEq, Repr

/-- Models `create_review()` (reviews.py lines 185-226): 400 when any of the
five required keys is absent or the rating is outside 1..5; otherwise insert
a row built only from the whitelisted payload fields, with `status='pending'`
hard-coded (line 212) and `helpfulness` left to its column default
`{"likes": 0, "dislikes": 0}` (line 28).  The payload's `status` and
`helpfulness` fields are never read. -/
def create_review (db : DB) (data : CreatePayload) : Outcome × DB :=
  match data.id, data.product_id, data.user_id, data.title, data.rating with
  | some i, some p, some u, some t, some rat =>
    if ¬(1 ≤ rat ∧ rat ≤ 5) then (.validationError, db)
    else
      (.success,
        { db with reviews := db.reviews ++
            [{ id := i, product_id := p, user_id := u, title := t
               comment := data.comment, rating := rat, photos := data.photos
               helpfulness := { likes := 0, dislikes := 0 }
               status := "pending"
               verified_purchase := (data.verified_purchase).getD false
               attributes := (data.attributes).getD [] }] })
  | _, _, _, _, _ => (.validationError, db)

/-! ## Interleaved approvals (for the concurrency claim)

`approve_review`'s success path touches the shared committed state at three
points: the status commit (line 241), the fresh read of the approved set
inside `update_product_summary` (line 72), and the summary commit (line
245).  Between any two of these, another request handler can run.  An
in-flight approval is a program counter plus the snapshot its read took;
`run2` executes two such approvals under an arbitrary interleaving. -/

/-- An in-flight `approve_review` for review `rid` of product `pid`, already
past the pending check.  `pc = 0`: about to commit the status change;
`1`: about to read the approved set; `2`: about to commit the summary
computed from its snapshot; `3`: done. -/
structure ApproveProc where
  rid : String
  pid : String
  pc : Nat
  snap : List Review
deriving DecidableEq, Repr

/-- One atomic step of an in-flight approval against the shared state. -/
def stepProc (db : DB) (p : ApproveProc) : DB × ApproveProc :=
  if p.pc = 0 then
    ({ db with reviews := setStatus db.reviews p.rid "approved" }, { p with pc := 1 })
  else if p.pc = 1 then
    (db, { p with snap := approvedOf db p.pid, pc := 2 })
  else if p.pc = 2 then
    ({ db with summaries := putSummary db.summaries p.pid (computeSummary p.snap) },
      { p with pc := 3 })
  else (db, p)

/-- Run two in-flight approvals under a schedule: `true` steps the first
process, `false` the second. -/
def run2 (db : DB) (a b : ApproveProc) : List Bool → DB × ApproveProc × ApproveProc
  | [] => (db, a, b)
  | true :: rest =>
    let s := stepProc db a
    run2 s.1 s.2 b rest
  | false :: rest =>
    let s := stepProc db b
    run2 s.1 a s.2 rest

/-! ## Specification-side quantities

These definitions restate, directly from the specification's wording, the
quantities the aggregated summary is claimed to equal; the theorems below
relate them to the accumulator-style computation of `computeSummary`. -/

/-- Count of reviews carrying a given rating. -/
def countR (k : Nat) (l : List Review) : Nat :=
  (l.filter (fun r => r.rating == k)).length

/-- The values of attribute `a` over exactly the reviews that contain key
`a`, in review order — reviews lacking the key contribute nothing. -/
def attrValuesOf (a : String) (l : List Review) : List ℚ :=
  l.filterMap (fun r => r.attributes.lookup a)

/-- Combination of an accumulator-dict entry (possibly absent) with an
additional sum/count contribution; the glue used to state what one fold
step does to a single key's `{"sum": .., "count": ..}` record. -/
def scOf (o : Option (ℚ × Nat)) (sa : ℚ) (ca : Nat) : Option (ℚ × Nat) :=
  if ca = 0 then o else some ((o.getD (0, 0)).1 + sa, (o.getD (0, 0)).2 + ca)

/-! ## Concrete fixtures used by the closed theorems -/

/-- Fixture review for product "P" with the given id, rating, status and
attributes. -/
def sampleReview (i : String) (rat : Nat) (st : String) (attrs : List (String × ℚ)) : Review :=
  { id := i, product_id := "P", user_id := "u1", title := "t", comment := none
    rating := rat, photos := none, helpfulness := { likes := 0, dislikes := 0 }
    status := st, verified_purchase := false, attributes := attrs }

/-- Fixture: one pending review for product "P"; the product's summary row
exists and is still zeroed. -/
def dbPending : DB :=
  { reviews := [sampleReview "r1" 4 "pending" []]
    summaries := [("P", zeroSummary)], responses := [] }

/-- Fixture: two pending reviews r3 and r4 for product "P" with the given
ratings; no summary row yet. -/
def dbTwoPending (ra rb : Nat) : DB :=
  { reviews := [sampleReview "r3" ra "pending" [], sampleReview "r4" rb "pending" []]
    summaries := [], responses := [] }

/-- Fixture: an in-flight approval of r3 (product "P"). -/
def procR3 : ApproveProc := { rid := "r3", pid := "P", pc := 0, snap := [] }

/-- Fixture: an in-flight approval of r4 (product "P"). -/
def procR4 : ApproveProc := { rid := "r4", pid := "P", pc := 0, snap := [] }

/-- Fixture: an approved review carrying a durability attribute score. -/
def reviewDur : Review := sampleReview "ra" 5 "approved" [("durability", 4)]

/-- Fixture: an approved review with no attributes. -/
def reviewPlain : Review := sampleReview "rb" 3 "approved" []

/-- Fixture: a review whose stored responses are not in `response_date`
order (the later one was inserted first), plus one inactive response. -/
def dbWithResponses : DB :=
  { reviews := [sampleReview "r1" 4 "approved" []], summaries := []
    responses :=
      [{ id := "s2", review_id := "r1", user_id := "u2", comment := "later"
         response_date := 10, is_seller := false, status := "active" },
       { id := "s1", review_id := "r1", user_id := "u3", comment := "earlier"
         response_date := 3, is_seller := true, status := "active" },
       { id := "s3", review_id := "r1", user_id := "u4", comment := "hidden"
         response_date := 1, is_seller := false, status := "inactive" }] }

/-- Fixture: a valid create payload that also smuggles `status` and
`helpfulness` values, which the handler must ignore. -/
def payloadFull : CreatePayload :=
  { id := some "n1", product_id := some "P", user_id := some "u9", title := some "T"
    comment := some "ok", rating := some 5, photos := none, verified_purchase := some true
    attributes := some [("durability", 4)]
    status := some "approved", helpfulness := some { likes := 9, dislikes := 9 } }

/-! ## Helper lemmas -/

lemma isEmpty_false_of_ne_nil {l : List Review} (h : l ≠ []) : l.isEmpty = false := by
  simp [List.isEmpty_iff, h]

lemma foldl_bump_eq (l : List Review) (d : Distribution) :
    l.foldl (fun d r => d.bump r.rating) d =
      ⟨d.c1 + countR 1 l, d.c2 + countR 2 l, d.c3 + countR 3 l,
       d.c4 + countR 4 l, d.c5 + countR 5 l⟩ := by
  induction l generalizing d with
  | nil => simp [countR]
  | cons r t ih =>
    rw [List.foldl_cons, ih]
    unfold Distribution.bump
    have hc : ∀ k, countR k (r :: t) =
        (if r.rating == k then 1 else 0) + countR k t := by
      intro k
      by_cases hrk : r.rating = k
      · simp [countR, List.filter_cons, hrk, Nat.add_comm]
      · simp [countR, List.filter_cons, beq_false_of_ne hrk]
    simp only [hc]
    split_ifs with h1 h2 h3 h4 h5 <;>
      simp_all [Distribution.mk.injEq] <;> omega

lemma round2_zero : round2 0 = 0 := by
  simp [round2]

lemma lookup_upsertAttr (acc : List (String × ℚ × Nat)) (b : String) (v : ℚ) (a : String) :
    (upsertAttr acc b v).lookup a =
      if a = b then scOf (acc.lookup a) v 1 else acc.lookup a := by
  induction acc with
  | nil =>
    by_cases hab : a = b <;>
      simp [upsertAttr, List.lookup_cons, hab, scOf, beq_iff_eq, beq_false_of_ne]
  | cons p rest ih =>
    obtain ⟨c, s, k⟩ := p
    by_cases hcb : c = b
    · subst hcb
      by_cases hab : a = c <;>
        simp [upsertAttr, List.lookup_cons, hab, scOf, beq_iff_eq, beq_false_of_ne]
    · by_cases hac : a = c
      · subst hac
        have hab : ¬a = b := fun h => hcb h
        simp [upsertAttr, List.lookup_cons, hcb, hab, beq_iff_eq, beq_false_of_ne]
      · simp [upsertAttr, List.lookup_cons, hcb, hac, ih, beq_iff_eq, beq_false_of_ne]

lemma scOf_scOf (o : Option (ℚ × Nat)) (s1 s2 : ℚ) (c1 c2 : Nat)
    (h1 : c1 = 0 → s1 = 0) (h2 : c2 = 0 → s2 = 0) :
    scOf (scOf o s1 c1) s2 c2 = scOf o (s1 + s2) (c1 + c2) := by
  unfold scOf
  by_cases hc1 : c1 = 0
  · subst hc1
    simp [h1 rfl]
  · by_cases hc2 : c2 = 0
    · subst hc2
      simp [hc1, h2 rfl]
    · have hcc : ¬(c1 + c2 = 0) := by omega
      simp [hc1, hc2, hcc, add_assoc]

lemma lookup_foldl_upsertAttr (ps : List (String × ℚ)) (acc : List (String × ℚ × Nat)) (a : String) :
    (ps.foldl (fun acc p => upsertAttr acc p.1 p.2) acc).lookup a =
      scOf (acc.lookup a)
        (((ps.filter (fun p => p.1 == a)).map Prod.snd).sum)
        ((ps.filter (fun p => p.1 == a)).length) := by
  induction ps generalizing acc with
  | nil => simp [scOf]
  | cons p t ih =>
    rw [List.foldl_cons, ih, lookup_upsertAttr]
    by_cases hpa : a = p.1
    · have hzero : (t.filter (fun p => p.1 == a)).length = 0 →
          ((t.filter (fun p => p.1 == a)).map Prod.snd).sum = 0 := by
        intro hlen
        rw [List.length_eq_zero] at hlen
        simp [hlen]
      rw [if_pos hpa, scOf_scOf _ _ _ _ _ (by simp) hzero]
      simp [List.filter_cons, hpa.symm, Nat.add_comm]
    · rw [if_neg hpa]
      have : (p.1 == a) = false := beq_false_of_ne (fun h => hpa h.symm)
      simp [List.filter_cons, this]

lemma filter_key_of_nodup (ps : List (String × ℚ)) (hnd : (ps.map Prod.fst).Nodup) (a : String) :
    ps.filter (fun p => p.1 == a) =
      match ps.lookup a with
      | some v => [(a, v)]
      | none => [] := by
  induction ps with
  | nil => simp
  | cons p t ih =>
    obtain ⟨k, v⟩ := p
    simp only [List.map_cons, List.nodup_cons] at hnd
    obtain ⟨hk, hnd'⟩ := hnd
    by_cases hak : a = k
    · subst hak
      have ht : t.filter (fun p => p.1 == a) = [] := by
        rw [List.filter_eq_nil_iff]
        intro p hp hbeq
        have hpk : p.1 = a := by simpa using hbeq
        exact absurd (hpk ▸ List.mem_map_of_mem Prod.fst hp) hk
      simp [List.filter_cons, List.lookup_cons, ht]
    · have hbk : (k == a) = false := beq_false_of_ne (fun h => hak h.symm)
      have hba : (a == k) = false := beq_false_of_ne hak
      simp [List.filter_cons, List.lookup_cons, hbk, hba, ih hnd']

lemma attrValues_len_zero (a : String) (t : List Review)
    (h : (attrValuesOf a t).length = 0) : (attrValuesOf a t).sum = 0 := by
  rw [List.length_eq_zero] at h
  simp [h]

lemma lookup_foldl_reviews (l : List Review) (acc : List (String × ℚ × Nat)) (a : String)
    (hnd : ∀ r ∈ l, (r.attributes.map Prod.fst).Nodup) :
    (l.foldl (fun acc r => r.attributes.foldl (fun a p => upsertAttr a p.1 p.2) acc) acc).lookup a =
      scOf (acc.lookup a) (attrValuesOf a l).sum ((attrValuesOf a l).length) := by
  induction l generalizing acc with
  | nil => simp [attrValuesOf, scOf]
  | cons r t ih =>
    rw [List.foldl_cons, ih _ (fun x hx => hnd x (List.mem_cons_of_mem _ hx)),
      lookup_foldl_upsertAttr, filter_key_of_nodup r.attributes (hnd r (List.mem_cons_self _ _)) a]
    cases hl : r.attributes.lookup a with
    | none =>
      have h0 : scOf (acc.lookup a) 0 0 = acc.lookup a := by simp [scOf]
      simp [attrValuesOf, List.filterMap_cons, hl, h0]
    | some v =>
      have hcomp := scOf_scOf (acc.lookup a) v (attrValuesOf a t).sum 1 (attrValuesOf a t).length
        (by simp) (attrValues_len_zero a t)
      simp only [List.map_cons, List.map_nil, List.sum_cons, List.sum_nil, add_zero,
        List.length_cons, List.length_nil, Nat.zero_add, hcomp]
      simp [attrValuesOf, List.filterMap_cons, hl, Nat.add_comm]

lemma lookup_attrSums (l : List Review) (a : String)
    (hnd : ∀ r ∈ l, (r.attributes.map Prod.fst).Nodup) :
    (attrSums l).lookup a = scOf none (attrValuesOf a l).sum ((attrValuesOf a l).length) := by
  rw [attrSums, lookup_foldl_reviews l [] a hnd]
  rfl

lemma lookup_map_entry (xs : List (String × ℚ × Nat)) (f : ℚ × Nat → ℚ) (a : String) :
    (xs.map (fun p => (p.1, f p.2))).lookup a = (xs.lookup a).map f := by
  induction xs with
  | nil => simp
  | cons p t ih =>
    obtain ⟨k, q⟩ := p
    by_cases hak : a = k
    · simp [List.lookup_cons, hak, beq_iff_eq]
    · simp [List.lookup_cons, beq_false_of_ne hak, ih]

lemma lookup_attribute_averages (l : List Review)
    (hnd : ∀ r ∈ l, (r.attributes.map Prod.fst).Nodup) (a : String) :
    ((computeSummary l).attribute_averages).lookup a =
      if attrValuesOf a l = [] then none
      else some ((attrValuesOf a l).sum / ((attrValuesOf a l).length : ℚ)) := by
  by_cases hl : l = []
  · subst hl
    simp [computeSummary, zeroSummary, attrValuesOf]
  · simp only [computeSummary, isEmpty_false_of_ne_nil hl, Bool.false_eq_true, if_false]
    rw [lookup_map_entry (attrSums l) (fun q => if q.2 > 0 then q.1 / (q.2 : ℚ) else 0) a,
      lookup_attrSums l a hnd]
    by_cases hv : attrValuesOf a l = []
    · simp [hv, scOf]
    · have hlen : (attrValuesOf a l).length ≠ 0 := by
        simpa [List.length_eq_zero] using hv
      simp only [scOf, if_neg hlen, Option.getD_none, Option.map_some']
      rw [if_neg hv]
      simp [Nat.pos_of_ne_zero hlen]

lemma countR_perm {l l' : List Review} (hperm : l.Perm l') (k : Nat) :
    countR k l = countR k l' :=
  (hperm.filter _).length_eq

lemma distOf_perm {l l' : List Review} (hperm : l.Perm l') :
    distOf l' = distOf l := by
  rw [distOf, distOf, foldl_bump_eq, foldl_bump_eq]
  simp only [countR_perm hperm]

lemma attrValuesOf_perm (a : String) {l l' : List Review} (hperm : l.Perm l') :
    (attrValuesOf a l).Perm (attrValuesOf a l') :=
  hperm.filterMap _

lemma find?_map_update (rs : List Review) (rid : String) (f : Review → Review)
    (hf : ∀ r, (f r).id = r.id) :
    (rs.map (fun r => if r.id == rid then f r else r)).find? (fun r => r.id == rid) =
      (rs.find? (fun r => r.id == rid)).map f := by
  induction rs with
  | nil => rfl
  | cons x t ih =>
    by_cases hx : x.id = rid
    · rw [List.map_cons, if_pos (by simpa using hx)]
      rw [List.find?_cons_of_pos _ (by simp [hf, hx]),
        List.find?_cons_of_pos _ (by simpa using hx)]
      rfl
    · rw [List.map_cons, if_neg (by simpa using hx)]
      rw [List.find?_cons_of_neg _ (by simpa using hx),
        List.find?_cons_of_neg _ (by simpa using hx), ih]

lemma getReview_setStatus (rs : List Review) (rid st : String) :
    (setStatus rs rid st).find? (fun r => r.id == rid) =
      (rs.find? (fun r => r.id == rid)).map (fun r => { r with status := st }) :=
  find?_map_update rs rid _ (fun _ => rfl)

/-! ## Claim theorems -/

/-- Claim C1: for every review set handed to the summary recomputation,
`total_reviews` equals the sum of the five distribution counters,
`average_rating` equals `round2` of (Σ rating·count)/total_reviews when
`total_reviews > 0` and `0` otherwise, and the empty input yields the
all-zero summary (`zeroSummary` has average 0, total 0, all five counters 0
and an empty `attribute_averages` mapping). -/
theorem C1_summary_invariants (l : List Review) :
    (computeSummary l).total_reviews = (computeSummary l).distribution.sumValues
  ∧ (computeSummary l).average_rating =
      (if 0 < (computeSummary l).total_reviews
       then round2 (((computeSummary l).distribution.totalRatings : ℚ) /
              ((computeSummary l).total_reviews : ℚ))
       else 0)
  ∧ computeSummary [] = zeroSummary := by
  refine ⟨?_, ?_, rfl⟩ <;> by_cases hl : l = []
  · subst hl
    rfl
  · simp [computeSummary, isEmpty_false_of_ne_nil hl]
  · subst hl
    simp [computeSummary, zeroSummary, Distribution.zero, Distribution.sumValues]
  · simp only [computeSummary, isEmpty_false_of_ne_nil hl, Bool.false_eq_true, if_false]
    by_cases hpos : 0 < (distOf l).sumValues
    · simp [hpos]
    · simp [hpos, Nat.le_zero.mp (Nat.not_lt.mp hpos), round2_zero]

/-- Claim C4: on a fetched review, approve succeeds and sets the status to
approved exactly when the review is pending, reject succeeds and sets the
status to rejected exactly when it is pending, and on a non-pending review
both handlers return the invalid-transition error (HTTP 400) with the
database unchanged. -/
theorem C4_moderation_transitions (db : DB) (rid : String) (r : Review)
    (h : getReview db rid = some r) :
    ((approve_review db rid .neither).1 = .success ↔ r.status = "pending")
  ∧ ((reject_review db rid false).1 = .success ↔ r.status = "pending")
  ∧ (r.status = "pending" →
      getReview (approve_review db rid .neither).2 rid = some { r with status := "approved" }
    ∧ getReview (reject_review db rid false).2 rid = some { r with status := "rejected" })
  ∧ (r.status ≠ "pending" →
      approve_review db rid .neither = (.invalidState, db)
    ∧ reject_review db rid false = (.invalidState, db)) := by
  by_cases hp : r.status = "pending"
  · have hcond : ¬(r.status ≠ "pending") := by simp [hp]
    have ha : approve_review db rid .neither =
        (.success, update_product_summary
          { db with reviews := setStatus db.reviews rid "approved" } r.product_id) := by
      simp only [approve_review, h]
      rw [if_neg hcond]
    have hr : reject_review db rid false =
        (.success, { db with reviews := setStatus db.reviews rid "rejected" }) := by
      simp only [reject_review, h]
      rw [if_neg hcond]
      rfl
    refine ⟨by rw [ha]; simp [hp], by rw [hr]; simp [hp], fun _ => ⟨?_, ?_⟩,
      fun hc => absurd hp hc⟩
    · rw [ha]
      show (setStatus db.reviews rid "approved").find? (fun x => x.id == rid) = _
      rw [getReview_setStatus, show db.reviews.find? (fun x => x.id == rid) = some r from h]
      rfl
    · rw [hr]
      show (setStatus db.reviews rid "rejected").find? (fun x => x.id == rid) = _
      rw [getReview_setStatus, show db.reviews.find? (fun x => x.id == rid) = some r from h]
      rfl
  · have ha : approve_review db rid .neither = (.invalidState, db) := by
      simp only [approve_review, h]
      rw [if_pos hp]
    have hr : reject_review db rid false = (.invalidState, db) := by
      simp only [reject_review, h]
      rw [if_pos hp]
    exact ⟨by rw [ha]; exact iff_of_false (by simp) hp,
      by rw [hr]; exact iff_of_false (by simp) hp,
      fun hcp => absurd hcp hp, fun _ => ⟨ha, hr⟩⟩

/-- Witness for C4 at a concrete pending review. -/
theorem C4_moderation_transitions_witness :
    (approve_review dbPending "r1" CommitFailure.neither).1 = Outcome.success ↔
      (sampleReview "r1" 4 "pending" []).status = "pending" :=
  (C4_moderation_transitions dbPending "r1" (sampleReview "r1" 4 "pending" []) rfl).1

/-- Claim C5: for every review set whose per-review attribute dicts have
distinct keys (as Python dicts do), the recomputed `attribute_averages`
maps key `a` to the mean of `attributes[a]` over exactly the reviews
containing key `a` — reviews lacking the key count toward neither the sum
nor the divisor — and it contains key `a` at all exactly when some input
review carries it (so its key set is the union of the inputs' key sets). -/
theorem C5_attribute_averages_exact (l : List Review)
    (hnd : ∀ r ∈ l, (r.attributes.map Prod.fst).Nodup) (a : String) :
    ((computeSummary l).attribute_averages).lookup a =
      if attrValuesOf a l = [] then none
      else some ((attrValuesOf a l).sum / ((attrValuesOf a l).length : ℚ)) :=
  lookup_attribute_averages l hnd a

/-- Witness for C5 at the specification's own example: one review with
`{durability: 4}` and one with no attributes. -/
theorem C5_attribute_averages_exact_witness :
    ((computeSummary [reviewDur, reviewPlain]).attribute_averages).lookup "durability" =
      if attrValuesOf "durability" [reviewDur, reviewPlain] = [] then none
      else some ((attrValuesOf "durability" [reviewDur, reviewPlain]).sum /
        ((attrValuesOf "durability" [reviewDur, reviewPlain]).length : ℚ)) :=
  C5_attribute_averages_exact [reviewDur, reviewPlain] (by decide) "durability"

/-- Claim C6: the summary recomputation is a deterministic pure function of
the input multiset: recomputing over the same list gives the same result,
and recomputing over any reordering gives the same distribution, total and
average, and an `attribute_averages` object equal as a mapping (association
lists built in different insertion orders are compared by lookup, which is
Python's dict equality). -/
theorem C6_recompute_order_independent (l l' : List Review) (hperm : l.Perm l')
    (hnd : ∀ r ∈ l, (r.attributes.map Prod.fst).Nodup) :
    computeSummary l = computeSummary l
  ∧ (computeSummary l').distribution = (computeSummary l).distribution
  ∧ (computeSummary l').total_reviews = (computeSummary l).total_reviews
  ∧ (computeSummary l').average_rating = (computeSummary l).average_rating
  ∧ ∀ a, ((computeSummary l').attribute_averages).lookup a =
      ((computeSummary l).attribute_averages).lookup a := by
  have hnd' : ∀ r ∈ l', (r.attributes.map Prod.fst).Nodup := fun r hr =>
    hnd r (hperm.mem_iff.mpr hr)
  by_cases hl : l = []
  · subst hl
    have hl' : l' = [] := hperm.symm.eq_nil
    subst hl'
    exact ⟨rfl, rfl, rfl, rfl, fun a => rfl⟩
  · have hl' : l' ≠ [] := by
      intro h
      exact hl ((h ▸ hperm).eq_nil)
    have hdist : distOf l' = distOf l := distOf_perm hperm
    refine ⟨rfl, ?_, ?_, ?_, ?_⟩
    · simp [computeSummary, isEmpty_false_of_ne_nil hl, isEmpty_false_of_ne_nil hl', hdist]
    · simp [computeSummary, isEmpty_false_of_ne_nil hl, isEmpty_false_of_ne_nil hl', hdist]
    · simp [computeSummary, isEmpty_false_of_ne_nil hl, isEmpty_false_of_ne_nil hl', hdist]
    · intro a
      rw [lookup_attribute_averages l hnd a, lookup_attribute_averages l' hnd' a]
      have hpv := attrValuesOf_perm a hperm
      by_cases hv : attrValuesOf a l = []
      · have hv' : attrValuesOf a l' = [] := ((hv ▸ hpv).symm).eq_nil
        rw [if_pos hv, if_pos hv']
      · have hv' : attrValuesOf a l' ≠ [] := by
          intro h
          exact hv ((h ▸ hpv).eq_nil)
        rw [if_neg hv, if_neg hv', hpv.sum_eq, hpv.length_eq]

/-- Witness for C6 at the two-review fixture and its reversal. -/
theorem C6_recompute_order_independent_witness :
    (computeSummary [reviewPlain, reviewDur]).total_reviews =
      (computeSummary [reviewDur, reviewPlain]).total_reviews :=
  (C6_recompute_order_independent [reviewDur, reviewPlain] [reviewPlain, reviewDur]
    (by decide) (by decide)).2.2.1

/-- Claim C7: rejecting a pending review flips its status to rejected and
leaves the summaries table (and the responses table) untouched, whether or
not the commit fails — the handler never reads or writes a summary row. -/
theorem C7_reject_leaves_summary_unchanged (db : DB) (rid : String) (r : Review)
    (h : getReview db rid = some r) (hp : r.status = "pending") :
    (∀ fail, (reject_review db rid fail).2.summaries = db.summaries
           ∧ (reject_review db rid fail).2.responses = db.responses)
  ∧ getReview (reject_review db rid false).2 rid = some { r with status := "rejected" } := by
  have hcond : ¬(r.status ≠ "pending") := by simp [hp]
  constructor
  · intro fail
    cases fail <;> simp only [reject_review, h] <;> rw [if_neg hcond] <;> exact ⟨rfl, rfl⟩
  · have hr : reject_review db rid false =
        (.success, { db with reviews := setStatus db.reviews rid "rejected" }) := by
      simp only [reject_review, h]
      rw [if_neg hcond]
      rfl
    rw [hr]
    show (setStatus db.reviews rid "rejected").find? (fun x => x.id == rid) = _
    rw [getReview_setStatus, show db.reviews.find? (fun x => x.id == rid) = some r from h]
    rfl

/-- Witness for C7 at a concrete pending review. -/
theorem C7_reject_leaves_summary_unchanged_witness :
    getReview (reject_review dbPending "r1" false).2 "r1" =
      some { sampleReview "r1" 4 "pending" [] with status := "rejected" } :=
  (C7_reject_leaves_summary_unchanged dbPending "r1" (sampleReview "r1" 4 "pending" []) rfl rfl).2

/-- Counterexample to claim C2 as stated: `approve_review` commits the
status flip (reviews.py line 241) before it recomputes and separately
commits the summary (line 245).  When the second commit raises, the handler
returns 500, yet the committed state already shows the review approved
while the product's summary still reports 0 total reviews even though one
approved review now exists — exactly the partial state the claim rules
out. -/
theorem C2_commit_split_counterexample :
    (approve_review dbPending "r1" .second).1 = .serverError
  ∧ ((approve_review dbPending "r1" .second).2.reviews.map Review.status) = ["approved"]
  ∧ (approve_review dbPending "r1" .second).2.summaries = dbPending.summaries
  ∧ ((approve_review dbPending "r1" .second).2.summaries.lookup "P").map
      ReviewSummary.total_reviews = some 0
  ∧ (approvedOf (approve_review dbPending "r1" .second).2 "P").length = 1 := by
  decide

/-- Claim C2, amended: the status change and the summary update are
committed in two separate transactions, not atomically.  A failure of the
first commit leaves nothing visible; a failure of the second leaves the
approved status visible with the summary unchanged; only on full success
are both visible, the summary being recomputed from the fresh post-flip
approved set. -/
theorem C2_amended_two_phase_commit (db : DB) (rid : String) (r : Review)
    (h : getReview db rid = some r) (hp : r.status = "pending") :
    approve_review db rid .first = (.serverError, db)
  ∧ (approve_review db rid .second).2.summaries = db.summaries
  ∧ getReview (approve_review db rid .second).2 rid = some { r with status := "approved" }
  ∧ (approve_review db rid .neither).1 = .success
  ∧ getReview (approve_review db rid .neither).2 rid = some { r with status := "approved" }
  ∧ (approve_review db rid .neither).2.summaries =
      putSummary db.summaries r.product_id
        (computeSummary (approvedOf
          { db with reviews := setStatus db.reviews rid "approved" } r.product_id)) := by
  have hcond : ¬(r.status ≠ "pending") := by simp [hp]
  have h1 : approve_review db rid .first = (.serverError, db) := by
    simp only [approve_review, h]
    rw [if_neg hcond]
  have h2 : approve_review db rid .second =
      (.serverError, { db with reviews := setStatus db.reviews rid "approved" }) := by
    simp only [approve_review, h]
    rw [if_neg hcond]
  have h3 : approve_review db rid .neither =
      (.success, update_product_summary
        { db with reviews := setStatus db.reviews rid "approved" } r.product_id) := by
    simp only [approve_review, h]
    rw [if_neg hcond]
  refine ⟨h1, by rw [h2], ?_, by rw [h3], ?_, by rw [h3]; rfl⟩
  · rw [h2]
    show (setStatus db.reviews rid "approved").find? (fun x => x.id == rid) = _
    rw [getReview_setStatus, show db.reviews.find? (fun x => x.id == rid) = some r from h]
    rfl
  · rw [h3]
    show (setStatus db.reviews rid "approved").find? (fun x => x.id == rid) = _
    rw [getReview_setStatus, show db.reviews.find? (fun x => x.id == rid) = some r from h]
    rfl

/-- Witness for the amended C2 at a concrete pending review. -/
theorem C2_amended_two_phase_commit_witness :
    approve_review dbPending "r1" CommitFailure.first = (Outcome.serverError, dbPending) :=
  (C2_amended_two_phase_commit dbPending "r1" (sampleReview "r1" 4 "pending" []) rfl rfl).1

/-- Counterexample to claim C3 as stated: the code has no per-product
serialization, so the two transition-plus-recompute sequences can
interleave between their commit points.  Under the schedule where approval
of r3 commits its status and reads the approved set before r4's status is
committed, and writes its summary last, the final state has both reviews
approved but a summary counting only one of them — a lost update. -/
theorem C3_interleaving_counterexample :
    ((run2 (dbTwoPending 5 3) procR3 procR4 [true, true, false, false, false, true]).1.reviews.map
      Review.status = ["approved", "approved"])
  ∧ (((run2 (dbTwoPending 5 3) procR3 procR4
      [true, true, false, false, false, true]).1.summaries.lookup "P").map
      ReviewSummary.total_reviews = some 1) := by
  decide

/-- Claim C3, amended: the recompute does read the full authoritative
approved set fresh on every run (`update_product_summary` queries the
reviews table, never patches the stored summary), but nothing serializes
the two sequences; both contributions are counted when the two runs happen
not to interleave — in either order — while an interleaved schedule can
lose one. -/
theorem C3_amended_serialized_no_lost_update (ra rb : Nat)
    (ha1 : 1 ≤ ra) (ha2 : ra ≤ 5) (hb1 : 1 ≤ rb) (hb2 : rb ≤ 5) :
    (((run2 (dbTwoPending ra rb) procR3 procR4
        [true, true, true, false, false, false]).1.summaries.lookup "P").map
        ReviewSummary.total_reviews = some 2)
  ∧ (((run2 (dbTwoPending ra rb) procR3 procR4
        [false, false, false, true, true, true]).1.summaries.lookup "P").map
        ReviewSummary.total_reviews = some 2) := by
  interval_cases ra <;> interval_cases rb <;> exact ⟨by decide, by decide⟩

/-- Witness for the amended C3 at ratings 5 and 3. -/
theorem C3_amended_serialized_no_lost_update_witness :
    (((run2 (dbTwoPending 5 3) procR3 procR4
        [true, true, true, false, false, false]).1.summaries.lookup "P").map
        ReviewSummary.total_reviews = some 2)
  ∧ (((run2 (dbTwoPending 5 3) procR3 procR4
        [false, false, false, true, true, true]).1.summaries.lookup "P").map
        ReviewSummary.total_reviews = some 2) :=
  C3_amended_serialized_no_lost_update 5 3 (by decide) (by decide) (by decide) (by decide)

/-- Counterexample to claim C9 as stated: the response listing applies no
`order_by` (reviews.py line 162), so rows come back in storage order.  With
the later-dated active response stored first, the returned dates are
[10, 3], which is not ascending (the inactive response is excluded). -/
theorem C9_unordered_counterexample :
    (listResponses dbWithResponses "r1").map ReviewResponse.response_date = [10, 3]
  ∧ ¬ List.Sorted (fun x y => x ≤ y)
      ((listResponses dbWithResponses "r1").map ReviewResponse.response_date) := by
  refine ⟨by decide, ?_⟩
  intro hs
  rw [show (listResponses dbWithResponses "r1").map ReviewResponse.response_date = [10, 3]
    by decide] at hs
  rcases List.pairwise_cons.mp hs with ⟨h10, _⟩
  exact absurd (h10 3 (by decide)) (by decide)

/-- Claim C9, amended: listing a review's responses returns exactly the
responses whose status is active — a response is in the output iff it is
stored, belongs to the review, and is active — in storage order (the output
is a sublist of the stored table); no ordering by `response_date` is
applied. -/
theorem C9_amended_active_only_storage_order (db : DB) (rid : String) :
    (∀ s : ReviewResponse, s ∈ listResponses db rid ↔
       (s ∈ db.responses ∧ s.review_id = rid ∧ s.status = "active"))
  ∧ List.Sublist (listResponses db rid) db.responses := by
  constructor
  · intro s
    simp only [listResponses, List.mem_filter, beq_iff_eq]
    tauto
  · exact ((db.responses.filter (fun s => s.review_id == rid)).filter_sublist).trans
      (List.filter_sublist _)

/-- Claim C10: a create request that passes validation always inserts a
review with status pending and helpfulness `{likes: 0, dislikes: 0}`; any
`status` or `helpfulness` the caller supplies is ignored (the handler's
result does not depend on those payload fields at all), so no review can
enter the system already approved, rejected, or with non-zero counters. -/
theorem C10_created_pending_zero_helpfulness (db : DB) (data : CreatePayload) :
    (∀ st hf, create_review db { data with status := st, helpfulness := hf } =
       create_review db data)
  ∧ ((create_review db data).1 = .success →
      ∃ r : Review, (create_review db data).2.reviews = db.reviews ++ [r]
        ∧ r.status = "pending" ∧ r.helpfulness = { likes := 0, dislikes := 0 }) := by
  obtain ⟨i, p, u, t, c, rat, ph, vp, at0, st0, hf0⟩ := data
  constructor
  · intro st hf
    cases i <;> cases p <;> cases u <;> cases t <;> cases rat <;> rfl
  · cases i <;> cases p <;> cases u <;> cases t <;> cases rat <;>
      simp only [create_review]
    all_goals try exact fun hs => Outcome.noConfusion hs
    split_ifs with hval
    · exact fun _ => ⟨_, rfl, rfl, rfl⟩
    · exact fun hs => hs.elim

/-- Witness for C10 at a payload that smuggles status approved and
non-zero helpfulness. -/
theorem C10_created_pending_zero_helpfulness_witness :
    ∃ r : Review, (create_review dbPending payloadFull).2.reviews = dbPending.reviews ++ [r]
      ∧ r.status = "pending" ∧ r.helpfulness = { likes := 0, dislikes := 0 } :=
  (C10_created_pending_zero_helpfulness dbPending payloadFull).2 rfl

end Reviews
